import Mathlib

/-!
Verification of the per-connection orchestration core of the ztalk
voice-conversation server: a shallow embedding of the TTS manager, the ASR
manager, the event bus, the PCM conversion and the recognizer chunking
code, with theorems settling the frozen claims about them.

Machine integers are modelled as `Nat`/`Int` (Python integers are
unbounded), byte strings as `List Nat`, and the float32 arithmetic of the
PCM conversion as `Rat` (division of an int16 value by the power of two
32768 is exact in float32, see `pcm_to_float`).
-/

namespace ZTalk

/-- Events published on the per-connection event bus, restricted to the
variants the claims mention.  Confidences are rationals, audio payloads
byte lists. -/
inductive Event where
  | asrPartialResult (text : String) (confidence : ℚ)
  | asrFinalResult (text : String) (confidence : ℚ)
  | ttsChunkGenerated (task_id : ℕ) (audio_chunk : List ℕ) (text : String)
  | ttsResponseUpdate (task_id : ℕ) (text : String)
  | ttsResponseFinish (task_id : ℕ) (text : String)
  | ttsPaused (task_id : ℕ) (text : String)
  | errorOccurred (error_type : String) (component : String)
deriving DecidableEq, Repr

/-- `true` exactly on `asrFinalResult` events (`is_final=True` publishes of
`_publish_asr_result`). -/
def Event.isASRFinal : Event → Bool
  | .asrFinalResult _ _ => true
  | _ => false

namespace TTSM

/-- `TTSQueueItem` from `tts_manager.py`: `{task_id, audio_chunk,
resp_text, is_final}`. -/
structure TTSQueueItem where
  task_id : ℕ
  audio_chunk : List ℕ
  resp_text : String
  is_final : Bool
deriving DecidableEq, Repr

/-- The mutable fields of `TTSManager` the claims are about. -/
structure TTSState where
  is_paused : Bool
  current_task_id : ℕ
  current_text : String
  accumulated_text : String
  asr_text : String
deriving DecidableEq, Repr

/-- `TTSManager.__init__` state. -/
def initState : TTSState :=
  { is_paused := false, current_task_id := 0, current_text := "",
    accumulated_text := "", asr_text := "" }

/-- `TTSManager.reset_tts`: clears the pause flag and the three text
fields; it does NOT touch `current_task_id`. -/
def reset_tts (s : TTSState) : TTSState :=
  { s with is_paused := false, current_text := "", accumulated_text := "",
           asr_text := "" }

/-- `TTSManager._generate_task_id`: increment `current_task_id` and return
it. -/
def generate_task_id (s : TTSState) : TTSState × ℕ :=
  let s' := { s with current_task_id := s.current_task_id + 1 }
  (s', s'.current_task_id)

/-- `TTSManager._handle_asr_result_final`: `reset_tts`, store the ASR text,
then `_generate_task_id` (the generator and consumer task starts are
modelled separately by `generate_tts_from_text` and `tts_consumer_step`). -/
def handle_asr_result_final (s : TTSState) (text : String) : TTSState :=
  let s1 := reset_tts s
  let s2 := { s1 with asr_text := text }
  (generate_task_id s2).1

/-- `TTSManager._pause_tts`: set `is_paused` (idempotent). -/
def pause_tts (s : TTSState) : TTSState :=
  { s with is_paused := true }

/-- `TTSManager._handle_vad_speech_start`: publish
`TTSPaused(current_task_id, current_text)` then `_pause_tts`. -/
def handle_vad_speech_start (s : TTSState) : TTSState × List Event :=
  (pause_tts s, [Event.ttsPaused s.current_task_id s.current_text])

/-- `TTSManager._handle_tts_playback_finished`: `reset_tts`. -/
def handle_tts_playback_finished (s : TTSState) : TTSState :=
  reset_tts s

/-- Result of one iteration of `TTSManager._tts_consumer`'s loop body. -/
structure ConsumerResult where
  state : TTSState
  last_sent_text : String
  queue : List TTSQueueItem
  events : List Event
deriving Repr

/-- One iteration of the `while` loop of `TTSManager._tts_consumer`:
if paused, sleep and re-check (popping nothing); otherwise pop the next
queue item (an empty queue is the `asyncio.TimeoutError` branch), drop it
silently when its `task_id` differs from `current_task_id`, else publish
the chunk event (non-empty audio), the update event (changed text, also
updating `current_text`/`accumulated_text`) and the finish event
(`is_final`). -/
def tts_consumer_step (s : TTSState) (last_sent_text : String)
    (queue : List TTSQueueItem) : ConsumerResult :=
  if s.is_paused then
    { state := s, last_sent_text := last_sent_text, queue := queue,
      events := [] }
  else
    match queue with
    | [] =>
      { state := s, last_sent_text := last_sent_text, queue := [],
        events := [] }
    | item :: rest =>
      if item.task_id ≠ s.current_task_id then
        { state := s, last_sent_text := last_sent_text, queue := rest,
          events := [] }
      else
        let chunkEvents :=
          if item.audio_chunk ≠ [] then
            [Event.ttsChunkGenerated item.task_id item.audio_chunk
              item.resp_text]
          else []
        let updated :=
          if item.resp_text ≠ last_sent_text then
            ({ s with current_text := item.resp_text,
                      accumulated_text := s.accumulated_text ++ item.resp_text },
             item.resp_text,
             [Event.ttsResponseUpdate s.current_task_id item.resp_text])
          else (s, last_sent_text, [])
        let finishEvents :=
          if item.is_final then
            [Event.ttsResponseFinish item.task_id item.resp_text]
          else []
        { state := updated.1, last_sent_text := updated.2.1, queue := rest,
          events := chunkEvents ++ updated.2.2 ++ finishEvents }

/-- One `(audio, text)` element yielded by
`pipeline.generate_stream(text)` (the `o.audio` / `o.text` fields read in
`generate_tts_from_text`). -/
structure PipelineOutput where
  audio : List ℕ
  text : String
deriving DecidableEq, Repr

/-- The `resp_text` update in the generator loop of
`TTSManager.generate_tts_from_text`:
`if not resp_text.endswith(new_text): resp_text += new_text`. -/
def gen_step (resp_text : String) (o : PipelineOutput) : String :=
  if resp_text.endsWith o.text then resp_text else resp_text ++ o.text

/-- `resp_text` after the generator loop has consumed the outputs. -/
def final_resp (outs : List PipelineOutput) (resp_text : String) : String :=
  outs.foldl gen_step resp_text

/-- The non-final queue items put by the generator loop of
`TTSManager.generate_tts_from_text`: one per yielded output, carrying the
cumulative `resp_text` and `is_final=False`. -/
def gen_items (task_id : ℕ) (resp_text : String) :
    List PipelineOutput → List TTSQueueItem
  | [] => []
  | o :: os =>
    let r := gen_step resp_text o
    { task_id := task_id, audio_chunk := o.audio, resp_text := r,
      is_final := false } :: gen_items task_id r os

/-- `TTSManager.generate_tts_from_text`, parameterised by the list of
outputs the pipeline generator yielded before exhausting or raising (the
normal path and the exception path both enqueue the same terminal item, so
they collapse to one function): after the loop, a terminal
`TTSQueueItem(task_id, b"", resp_text, True)` is enqueued iff `resp_text`
is non-empty. -/
def generate_tts_from_text (task_id : ℕ) (outs : List PipelineOutput) :
    List TTSQueueItem :=
  let items := gen_items task_id "" outs
  let resp := final_resp outs ""
  if resp ≠ "" then
    items ++ [{ task_id := task_id, audio_chunk := [], resp_text := resp,
                is_final := true }]
  else items

end TTSM

namespace ASRM

/-- The mutable recognition fields of `ASRManager` the claims are about. -/
structure ASRState where
  accumulated_text : String
  confidence_sum : ℚ
  chunk_count : ℕ
deriving DecidableEq, Repr

/-- `ASRManager._reset_asr`: all recognition state back to its initial
value. -/
def reset_asr (_s : ASRState) : ASRState :=
  { accumulated_text := "", confidence_sum := 0, chunk_count := 0 }

/-- `ASRManager._handle_vad_speech_start`: `_reset_asr` and start the
consumer; it publishes nothing. -/
def handle_vad_speech_start (s : ASRState) : ASRState × List Event :=
  (reset_asr s, [])

/-- `ASRManager._handle_audio_frame`: append the frame to the bounded
`deque(maxlen=1000)` buffer (drops the oldest on overflow); it publishes
nothing. -/
def handle_audio_frame (buffer : List (List ℕ)) (data : List ℕ) :
    List (List ℕ) × List Event :=
  (if buffer.length < 1000 then buffer ++ [data]
   else buffer.tail ++ [data], [])

/-- The hard-coded per-chunk confidence `mock_confidence = 0.85` of
`ASRManager._process_accumulated_audio`. -/
def mock_confidence : ℚ := 17 / 20

/-- The state update and publish of
`ASRManager._process_accumulated_audio`, parameterised by the text the
recognizer returned for the flushed bytes: on non-empty text, accumulate
it, add `mock_confidence` to `confidence_sum`, bump `chunk_count`, and
publish one partial result (`is_final=False`); on empty text, change
nothing and publish nothing. -/
def process_accumulated_audio (s : ASRState) (new_text : String) :
    ASRState × List Event :=
  if new_text ≠ "" then
    let s' : ASRState :=
      { accumulated_text := s.accumulated_text ++ new_text,
        confidence_sum := s.confidence_sum + mock_confidence,
        chunk_count := s.chunk_count + 1 }
    (s', [Event.asrPartialResult s'.accumulated_text mock_confidence])
  else (s, [])

/-- `ASRManager._finish_asr_processing`: publish one
`ASRResultFinal(accumulated_text.strip(), is_final=True,
confidence_sum / max(chunk_count, 1))`. -/
def finish_asr_processing (s : ASRState) : List Event :=
  [Event.asrFinalResult s.accumulated_text.trim
    (s.confidence_sum / (max s.chunk_count 1 : ℕ))]

/-- `ASRManager._handle_vad_speech_end`: stop the consumer (which
publishes nothing) then `_finish_asr_processing`. -/
def handle_vad_speech_end (s : ASRState) : List Event :=
  finish_asr_processing s

/-- One audio item popped from the buffer by `ASRManager._asr_consumer`
(the `data` and `is_final` fields it reads). -/
structure AudioItem where
  data : List ℕ
  is_final : Bool
deriving DecidableEq, Repr

/-- The byte-accounting of one iteration of `ASRManager._asr_consumer`
after popping `item`: extend `accumulated_audio`, decide
`should_process` (`is_final`, or `chunk_bytes` set and
`len(accumulated) - processed_bytes >= chunk_bytes`), and on a flush
advance `processed_bytes` — to `len(accumulated)` on a final flush, else
to `len(accumulated) - len(accumulated) % chunk_bytes`.  Returns the new
`(accumulated_audio, processed_bytes)`. -/
def asr_consumer_step (chunk_bytes : ℕ) (accumulated_audio : List ℕ)
    (processed_bytes : ℕ) (item : AudioItem) : List ℕ × ℕ :=
  let acc := accumulated_audio ++ item.data
  let should_process :=
    item.is_final ∨ (0 < chunk_bytes ∧ chunk_bytes ≤ acc.length - processed_bytes)
  if should_process ∧ processed_bytes < acc.length then
    if item.is_final then (acc, acc.length)
    else (acc, acc.length - acc.length % chunk_bytes)
  else (acc, processed_bytes)

end ASRM

namespace Bus

/-- An event as the bus sees it: its subject string, plus the
`error_type` payload carried by `error.occurred` events (empty for the
others). -/
structure BusEvent where
  event_type : String
  error_type : String := ""
deriving DecidableEq, Repr

/-- What a subscribed handler does when invoked on an event: returns
normally or raises an exception with a message. -/
inductive HandlerBehavior where
  | ok
  | raises (msg : String)
deriving DecidableEq, Repr

/-- A subscribed handler, modelled by its name and behavior. -/
structure Handler where
  name : String
  behavior : HandlerBehavior
deriving DecidableEq, Repr

/-- Invoking a handler on an event: `Except` models the Python call that
may raise. -/
def runHandler (h : Handler) (_e : BusEvent) : Except String Unit :=
  match h.behavior with
  | .ok => .ok ()
  | .raises m => .error m

/-- The derived `error.occurred` event built by
`EventBus._handle_event_safe` for a failing handler. -/
def handlerErrorEvent : BusEvent :=
  { event_type := "error.occurred", error_type := "event_handler_error" }

/-- `EventBus._handle_event_safe`: invoke the handler inside
`try/except`; on an exception, if the event being handled is not itself
`error.occurred`, publish one derived `error.occurred` event (of type
`event_handler_error`), otherwise only log.  The `Except` result models
what the wrapper lets escape to its caller: it is always `.ok` (the bare
`except Exception` swallows everything), carrying the list of derived
events it published. -/
def handle_event_safe (h : Handler) (e : BusEvent) :
    Except String (List BusEvent) :=
  match runHandler h e with
  | .ok _ => .ok []
  | .error _ =>
    if e.event_type ≠ "error.occurred" then .ok [handlerErrorEvent]
    else .ok []

/-- `EventBus.publish` on the success path (no exception can occur in the
body once the handler calls are wrapped): look up the subject's handler
list; with no handlers return `True` having spawned nothing; otherwise
spawn one `_handle_event_safe` task per handler and return `True`.  The
second component is the list of spawned tasks' results, one per handler
in subscription order. -/
def publish (table : String → List Handler) (e : BusEvent) :
    Bool × List (Except String (List BusEvent)) :=
  let handlers := table e.event_type
  if handlers.isEmpty then (true, [])
  else (true, handlers.map (fun h => handle_event_safe h e))

end Bus

/-- Decoding of one little-endian PCM16 sample from its two bytes, as
`np.frombuffer(pcm, dtype=np.int16)` does. -/
def int16OfBytesLE (lo hi : ℕ) : ℤ :=
  let u := lo + 256 * hi
  if u < 32768 then (u : ℤ) else (u : ℤ) - 65536

/-- `ASRManager._pcm_to_float` on one sample:
`pcm_int16.astype(np.float32) / 32768.0`.  For `|s| ≤ 32768` both the
int16→float32 cast and the division by the power of two 32768 are exact
in float32, so the rational value is the float32 value. -/
def pcm_to_float (s : ℤ) : ℚ :=
  (s : ℚ) / 32768

/-- No branch of the TTS consumer loop body writes `current_task_id`. -/
theorem tts_consumer_step_task_id (s : TTSM.TTSState) (ls : String)
    (q : List TTSM.TTSQueueItem) :
    (TTSM.tts_consumer_step s ls q).state.current_task_id =
      s.current_task_id := by
  rcases q with _ | ⟨item, rest⟩ <;>
    simp only [TTSM.tts_consumer_step] <;> split_ifs <;> rfl

/-- `ParaformerLocal.get_chunks` after `resample` (the identity whenever
`ori_sampling_rate == TARGET_SAMPLE_RATE == 16000`), with
`chunk_stride = int(chunk_secs * 16000)` passed in as computed by the
source.  `total_chunk_num = int(len(audio - 1) / chunk_stride + 1)`:
`audio - 1` is numpy elementwise subtraction, so `len(audio - 1)` is
`len(audio)` and the count truncates to `len(audio) // chunk_stride + 1`. -/
def get_chunks (audio : List ℚ) (chunk_stride : ℕ) : List (List ℚ) :=
  let total_chunk_num := audio.length / chunk_stride + 1
  (List.range total_chunk_num).map
    (fun i => ((audio.drop (i * chunk_stride)).take chunk_stride))

/-- C1: handling an `ASRResultFinal` increments `current_task_id` by
exactly one; `reset_tts`, the VAD-start handler, the playback-finished
handler and the consumer loop never change it (so per connection it is
strictly increasing and never reused); and when the consumer pops an item
whose `task_id` differs from the current one it removes it from the queue
and publishes nothing. -/
theorem C1_task_id_fresh_and_stale_items_dropped
    (s : TTSM.TTSState) (text last_sent_text : String)
    (q : List TTSM.TTSQueueItem) (item : TTSM.TTSQueueItem)
    (hpause : s.is_paused = false)
    (hne : item.task_id ≠ s.current_task_id) :
    (TTSM.handle_asr_result_final s text).current_task_id =
        s.current_task_id + 1 ∧
    (TTSM.reset_tts s).current_task_id = s.current_task_id ∧
    (TTSM.handle_vad_speech_start s).1.current_task_id =
        s.current_task_id ∧
    (TTSM.handle_tts_playback_finished s).current_task_id =
        s.current_task_id ∧
    (TTSM.tts_consumer_step s last_sent_text q).state.current_task_id =
        s.current_task_id ∧
    (TTSM.tts_consumer_step s last_sent_text (item :: q)).events = [] ∧
    (TTSM.tts_consumer_step s last_sent_text (item :: q)).queue = q := by
  refine ⟨rfl, rfl, rfl, rfl, tts_consumer_step_task_id s last_sent_text q,
    ?_, ?_⟩ <;>
    simp [TTSM.tts_consumer_step, hpause, hne]

/-- Witness for C1 at a concrete state and a stale queue item. -/
theorem C1_task_id_fresh_and_stale_items_dropped_witness :
    let s : TTSM.TTSState :=
      { is_paused := false, current_task_id := 5, current_text := "a",
        accumulated_text := "a", asr_text := "b" }
    let item : TTSM.TTSQueueItem :=
      { task_id := 3, audio_chunk := [7], resp_text := "x",
        is_final := false }
    (TTSM.handle_asr_result_final s "hello").current_task_id =
        s.current_task_id + 1 ∧
    (TTSM.reset_tts s).current_task_id = s.current_task_id ∧
    (TTSM.handle_vad_speech_start s).1.current_task_id =
        s.current_task_id ∧
    (TTSM.handle_tts_playback_finished s).current_task_id =
        s.current_task_id ∧
    (TTSM.tts_consumer_step s "" []).state.current_task_id =
        s.current_task_id ∧
    (TTSM.tts_consumer_step s "" [item]).events = [] ∧
    (TTSM.tts_consumer_step s "" [item]).queue = [] :=
  C1_task_id_fresh_and_stale_items_dropped _ "hello" "" [] _ rfl
    (by decide)

/-- C3: the VAD-start handler publishes exactly one `TTSPaused` event
carrying `current_task_id` and `current_text` and sets `is_paused`; and
one consumer iteration in any paused state removes nothing from the queue
and publishes nothing. -/
theorem C3_vad_start_pauses_and_paused_consumer_idles
    (s sp : TTSM.TTSState) (last_sent_text : String)
    (q : List TTSM.TTSQueueItem)
    (hp : sp.is_paused = true) :
    (TTSM.handle_vad_speech_start s).2 =
        [Event.ttsPaused s.current_task_id s.current_text] ∧
    (TTSM.handle_vad_speech_start s).1.is_paused = true ∧
    (TTSM.tts_consumer_step sp last_sent_text q).queue = q ∧
    (TTSM.tts_consumer_step sp last_sent_text q).events = [] := by
  refine ⟨rfl, rfl, ?_, ?_⟩ <;> simp [TTSM.tts_consumer_step, hp]

/-- Witness for C3: the state produced by the VAD-start handler itself is
paused, and the consumer then leaves a non-empty queue untouched. -/
theorem C3_vad_start_pauses_and_paused_consumer_idles_witness :
    let s : TTSM.TTSState :=
      { is_paused := false, current_task_id := 2, current_text := "hi",
        accumulated_text := "hi", asr_text := "q" }
    let sp := (TTSM.handle_vad_speech_start s).1
    let item : TTSM.TTSQueueItem :=
      { task_id := 2, audio_chunk := [1], resp_text := "hi",
        is_final := false }
    (TTSM.handle_vad_speech_start s).2 =
        [Event.ttsPaused s.current_task_id s.current_text] ∧
    (TTSM.handle_vad_speech_start s).1.is_paused = true ∧
    (TTSM.tts_consumer_step sp "" [item]).queue = [item] ∧
    (TTSM.tts_consumer_step sp "" [item]).events = [] :=
  C3_vad_start_pauses_and_paused_consumer_idles _ _ "" _ rfl

/-- C7: every decoded little-endian PCM16 sample is an int16 value; the
conversion maps a sample `s` to `s / 32768`, which lies in `[-1.0, 1.0)`;
and for `s ≠ -32768` the conversion round-trips through
`round(f32(s) * 32768)`. -/
theorem C7_pcm_to_float_range_and_roundtrip
    (s : ℤ) (lo hi : ℕ)
    (hlo : lo < 256) (hhi : hi < 256)
    (h1 : -32768 ≤ s) (h2 : s ≤ 32767) (hne : s ≠ -32768) :
    pcm_to_float s = (s : ℚ) / 32768 ∧
    (-1 ≤ pcm_to_float s ∧ pcm_to_float s < 1) ∧
    round (pcm_to_float s * 32768) = s ∧
    (-32768 ≤ int16OfBytesLE lo hi ∧ int16OfBytesLE lo hi ≤ 32767) := by
  have hc1 : ((-32768 : ℤ) : ℚ) ≤ (s : ℚ) := by exact_mod_cast h1
  have hc2 : (s : ℚ) ≤ ((32767 : ℤ) : ℚ) := by exact_mod_cast h2
  push_cast at hc1 hc2
  refine ⟨rfl, ⟨?_, ?_⟩, ?_, ?_⟩
  · rw [pcm_to_float, le_div_iff₀ (by norm_num : (0:ℚ) < 32768)]
    linarith
  · rw [pcm_to_float, div_lt_one (by norm_num : (0:ℚ) < 32768)]
    linarith
  · rw [pcm_to_float,
      div_mul_cancel₀ _ (by norm_num : (32768:ℚ) ≠ 0), round_intCast]
  · simp only [int16OfBytesLE]
    split_ifs <;> constructor <;> push_cast <;> omega

/-- Witness for C7 at the sample `-5` decoded from bytes `0xFB 0xFF`. -/
theorem C7_pcm_to_float_range_and_roundtrip_witness :
    pcm_to_float (-5) = ((-5 : ℤ) : ℚ) / 32768 ∧
    (-1 ≤ pcm_to_float (-5) ∧ pcm_to_float (-5) < 1) ∧
    round (pcm_to_float (-5) * 32768) = (-5 : ℤ) ∧
    (-32768 ≤ int16OfBytesLE 251 255 ∧ int16OfBytesLE 251 255 ≤ 32767) :=
  C7_pcm_to_float_range_and_roundtrip (-5) 251 255 (by decide) (by decide)
    (by decide) (by decide) (by decide)

/-- `gen_step` never turns a non-empty `resp_text` empty (the generator
only appends to it). -/
theorem gen_step_ne_empty (resp_text : String) (o : TTSM.PipelineOutput)
    (h : resp_text ≠ "") : TTSM.gen_step resp_text o ≠ "" := by
  rw [TTSM.gen_step]
  split
  · exact h
  · intro hab
    apply h
    have hd := congrArg String.data hab
    simp at hd
    exact String.ext hd.1

/-- Once `resp_text` is non-empty it stays non-empty for the rest of the
generator loop. -/
theorem final_resp_ne_empty (outs : List TTSM.PipelineOutput)
    (resp_text : String) (h : resp_text ≠ "") :
    TTSM.final_resp outs resp_text ≠ "" := by
  induction outs generalizing resp_text with
  | nil => exact h
  | cons o os ih =>
    exact ih (TTSM.gen_step resp_text o) (gen_step_ne_empty resp_text o h)

/-- `final_resp` over a split list composes. -/
theorem final_resp_append (xs ys : List TTSM.PipelineOutput)
    (resp_text : String) :
    TTSM.final_resp (xs ++ ys) resp_text =
      TTSM.final_resp ys (TTSM.final_resp xs resp_text) := by
  simp [TTSM.final_resp, List.foldl_append]

/-- Every item the generator loop itself enqueues has `is_final=False`. -/
theorem gen_items_not_final (task_id : ℕ) (resp_text : String)
    (outs : List TTSM.PipelineOutput) :
    ∀ i ∈ TTSM.gen_items task_id resp_text outs, i.is_final = false := by
  induction outs generalizing resp_text with
  | nil => intro i hi; simp [TTSM.gen_items] at hi
  | cons o os ih =>
    intro i hi
    simp only [TTSM.gen_items] at hi
    rcases List.mem_cons.mp hi with hi | hi
    · subst hi; rfl
    · exact ih _ i hi

/-- C5: the generator enqueues a terminal item (same `task_id`, empty
audio, the accumulated `resp_text`, `is_final=True`) exactly when
`resp_text` ended non-empty; `resp_text` ends non-empty iff it became
non-empty at any point of the generation; when `resp_text` stayed empty
every enqueued item is non-final; and the consumer, popping the terminal
item of the current task, publishes a `TTSResponseFinish` for it. -/
theorem C5_terminal_item_iff_resp_text
    (task_id : ℕ) (outs : List TTSM.PipelineOutput) (s : TTSM.TTSState)
    (last_sent_text r : String) (q : List TTSM.TTSQueueItem)
    (hp : s.is_paused = false) (ht : s.current_task_id = task_id) :
    (TTSM.final_resp outs "" ≠ "" →
       TTSM.generate_tts_from_text task_id outs =
         TTSM.gen_items task_id "" outs ++
           [{ task_id := task_id, audio_chunk := [],
              resp_text := TTSM.final_resp outs "", is_final := true }]) ∧
    (TTSM.final_resp outs "" = "" →
       TTSM.generate_tts_from_text task_id outs =
         TTSM.gen_items task_id "" outs ∧
       ∀ i ∈ TTSM.generate_tts_from_text task_id outs,
         i.is_final = false) ∧
    ((∃ k, TTSM.final_resp (outs.take k) "" ≠ "") ↔
       TTSM.final_resp outs "" ≠ "") ∧
    Event.ttsResponseFinish task_id r ∈
      (TTSM.tts_consumer_step s last_sent_text
        ({ task_id := task_id, audio_chunk := [], resp_text := r,
           is_final := true } :: q)).events := by
  refine ⟨?_, ?_, ⟨?_, ?_⟩, ?_⟩
  · intro h
    simp [TTSM.generate_tts_from_text, h]
  · intro h
    refine ⟨by simp [TTSM.generate_tts_from_text, h], ?_⟩
    intro i hi
    rw [TTSM.generate_tts_from_text] at hi
    simp only [h, ne_eq, not_true_eq_false, if_false] at hi
    exact gen_items_not_final task_id "" outs i hi
  · rintro ⟨k, hk⟩
    have hsplit := final_resp_append (outs.take k) (outs.drop k) ""
    rw [List.take_append_drop] at hsplit
    rw [hsplit]
    exact final_resp_ne_empty _ _ hk
  · intro h
    exact ⟨outs.length, by simpa [List.take_length] using h⟩
  · simp only [TTSM.tts_consumer_step, hp, Bool.false_eq_true, if_false,
      ht]
    split_ifs <;> simp_all

/-- Witness for C5: a two-output generation whose second snapshot repeats
the first, and the consumer popping the resulting terminal item. -/
theorem C5_terminal_item_iff_resp_text_witness :
    let outs : List TTSM.PipelineOutput :=
      [{ audio := [1, 2], text := "he" }, { audio := [3], text := "he" }]
    let s : TTSM.TTSState :=
      { is_paused := false, current_task_id := 4, current_text := "",
        accumulated_text := "", asr_text := "" }
    (TTSM.final_resp outs "" ≠ "" →
       TTSM.generate_tts_from_text 4 outs =
         TTSM.gen_items 4 "" outs ++
           [{ task_id := 4, audio_chunk := [],
              resp_text := TTSM.final_resp outs "", is_final := true }]) ∧
    (TTSM.final_resp outs "" = "" →
       TTSM.generate_tts_from_text 4 outs = TTSM.gen_items 4 "" outs ∧
       ∀ i ∈ TTSM.generate_tts_from_text 4 outs, i.is_final = false) ∧
    ((∃ k, TTSM.final_resp (outs.take k) "" ≠ "") ↔
       TTSM.final_resp outs "" ≠ "") ∧
    Event.ttsResponseFinish 4 "he" ∈
      (TTSM.tts_consumer_step s ""
        ({ task_id := 4, audio_chunk := [], resp_text := "he",
           is_final := true } :: [])).events :=
  C5_terminal_item_iff_resp_text 4 _ _ "" "he" [] rfl rfl

/-- C2: handling `VADSpeechEnd` publishes exactly one `ASRResultFinal`,
carrying the stripped `accumulated_text` and, for at least one recognized
chunk, confidence `confidence_sum / chunk_count` (the average of the
per-chunk confidences); and neither the audio-frame handler, the
VAD-start handler nor a flush of accumulated audio publishes any
`ASRResultFinal`. -/
theorem C2_one_final_per_vad_end (s : ASRM.ASRState) (t : String)
    (buffer : List (List ℕ)) (d : List ℕ)
    (hc : 1 ≤ s.chunk_count) :
    ASRM.handle_vad_speech_end s =
      [Event.asrFinalResult s.accumulated_text.trim
        (s.confidence_sum / (s.chunk_count : ℚ))] ∧
    ((ASRM.handle_vad_speech_end s).filter Event.isASRFinal).length = 1 ∧
    ((ASRM.process_accumulated_audio s t).2.filter
        Event.isASRFinal).length = 0 ∧
    ((ASRM.handle_vad_speech_start s).2.filter
        Event.isASRFinal).length = 0 ∧
    ((ASRM.handle_audio_frame buffer d).2.filter
        Event.isASRFinal).length = 0 := by
  have hmax : max s.chunk_count 1 = s.chunk_count := Nat.max_eq_left hc
  refine ⟨?_, ?_, ?_, ?_, ?_⟩
  · simp [ASRM.handle_vad_speech_end, ASRM.finish_asr_processing, hmax]
  · simp [ASRM.handle_vad_speech_end, ASRM.finish_asr_processing,
      Event.isASRFinal]
  · rw [ASRM.process_accumulated_audio]
    split_ifs <;> simp [Event.isASRFinal]
  · simp [ASRM.handle_vad_speech_start]
  · simp [ASRM.handle_audio_frame]

/-- Witness for C2 at a one-chunk utterance. -/
theorem C2_one_final_per_vad_end_witness :
    let s : ASRM.ASRState :=
      { accumulated_text := " hi ", confidence_sum := 17 / 20,
        chunk_count := 1 }
    ASRM.handle_vad_speech_end s =
      [Event.asrFinalResult s.accumulated_text.trim
        (s.confidence_sum / (s.chunk_count : ℚ))] ∧
    ((ASRM.handle_vad_speech_end s).filter Event.isASRFinal).length = 1 ∧
    ((ASRM.process_accumulated_audio s "x").2.filter
        Event.isASRFinal).length = 0 ∧
    ((ASRM.handle_vad_speech_start s).2.filter
        Event.isASRFinal).length = 0 ∧
    ((ASRM.handle_audio_frame [[0]] [1, 2]).2.filter
        Event.isASRFinal).length = 0 :=
  C2_one_final_per_vad_end _ "x" [[0]] [1, 2] (by decide)

/-- C10: the final-confidence divisor `max(chunk_count, 1)` is always
positive; the invariant `confidence_sum = 0.85 * chunk_count` holds after
a reset and is preserved by every flush; and on an utterance with no
recognized chunk the published final result carries confidence `0.0`. -/
theorem C10_no_division_by_zero (s s0 : ASRM.ASRState) (t : String)
    (hinv : s.confidence_sum = ASRM.mock_confidence * (s.chunk_count : ℚ))
    (hinv0 :
      s0.confidence_sum = ASRM.mock_confidence * (s0.chunk_count : ℚ))
    (h0 : s0.chunk_count = 0) :
    0 < max s.chunk_count 1 ∧
    (ASRM.reset_asr s).confidence_sum =
      ASRM.mock_confidence * ((ASRM.reset_asr s).chunk_count : ℚ) ∧
    (ASRM.process_accumulated_audio s t).1.confidence_sum =
      ASRM.mock_confidence *
        (((ASRM.process_accumulated_audio s t).1.chunk_count : ℕ) : ℚ) ∧
    ASRM.finish_asr_processing s0 =
      [Event.asrFinalResult s0.accumulated_text.trim 0] := by
  refine ⟨by omega, by simp [ASRM.reset_asr], ?_, ?_⟩
  · rw [ASRM.process_accumulated_audio]
    split_ifs
    · simp only []
      push_cast
      rw [hinv]
      ring
    · exact hinv
  · have hz : s0.confidence_sum = 0 := by
      rw [hinv0, h0]
      norm_num
    simp [ASRM.finish_asr_processing, h0, hz]

/-- Witness for C10 at the reset (empty-utterance) state. -/
theorem C10_no_division_by_zero_witness :
    let s0 : ASRM.ASRState :=
      { accumulated_text := "", confidence_sum := 0, chunk_count := 0 }
    0 < max s0.chunk_count 1 ∧
    (ASRM.reset_asr s0).confidence_sum =
      ASRM.mock_confidence * ((ASRM.reset_asr s0).chunk_count : ℚ) ∧
    (ASRM.process_accumulated_audio s0 "y").1.confidence_sum =
      ASRM.mock_confidence *
        (((ASRM.process_accumulated_audio s0 "y").1.chunk_count : ℕ) : ℚ) ∧
    ASRM.finish_asr_processing s0 =
      [Event.asrFinalResult s0.accumulated_text.trim 0] :=
  C10_no_division_by_zero _ _ "y" (by norm_num) (by norm_num) rfl

/-- C6: when a non-final flush triggers (`chunk_bytes` set and at least
`chunk_bytes` unprocessed bytes), the consumer advances `processed_bytes`
to `len - len % chunk_bytes`, which equals
`chunk_bytes * (len / chunk_bytes)`, the largest multiple of
`chunk_bytes` that is `≤ len`; and after a final-frame iteration
`processed_bytes` equals the accumulated length. -/
theorem C6_processed_bytes_advance (chunk_bytes : ℕ)
    (accumulated_audio : List ℕ) (processed_bytes : ℕ)
    (item itemF : ASRM.AudioItem) (n nF : ℕ)
    (hn : n = (accumulated_audio ++ item.data).length)
    (hnF : nF = (accumulated_audio ++ itemF.data).length)
    (hcb : 0 < chunk_bytes)
    (hnf : item.is_final = false)
    (hge : chunk_bytes ≤ n - processed_bytes)
    (hple : processed_bytes ≤ n)
    (hF : itemF.is_final = true)
    (hpleF : processed_bytes ≤ nF) :
    (ASRM.asr_consumer_step chunk_bytes accumulated_audio processed_bytes
        item).2 = n - n % chunk_bytes ∧
    n - n % chunk_bytes = chunk_bytes * (n / chunk_bytes) ∧
    chunk_bytes ∣ (n - n % chunk_bytes) ∧
    n - n % chunk_bytes ≤ n ∧
    (∀ m, chunk_bytes ∣ m → m ≤ n → m ≤ n - n % chunk_bytes) ∧
    (ASRM.asr_consumer_step chunk_bytes accumulated_audio processed_bytes
        itemF).2 = nF := by
  subst hn hnF
  have hlt : processed_bytes < (accumulated_audio ++ item.data).length := by
    omega
  have hkey :
      (accumulated_audio ++ item.data).length -
          (accumulated_audio ++ item.data).length % chunk_bytes =
        chunk_bytes * ((accumulated_audio ++ item.data).length /
          chunk_bytes) := by
    rw [Nat.sub_eq_iff_eq_add (Nat.mod_le _ _)]
    exact (Nat.div_add_mod _ _).symm
  refine ⟨?_, hkey, ?_, Nat.sub_le _ _, ?_, ?_⟩
  · simp only [ASRM.asr_consumer_step, hnf, Bool.false_eq_true, false_or]
    rw [if_pos ⟨⟨hcb, hge⟩, hlt⟩, if_neg (by simp [hnf])]
  · rw [hkey]
    exact Dvd.intro _ rfl
  · intro m hdvd hle
    obtain ⟨k, hk⟩ := hdvd
    subst hk
    rw [hkey]
    refine Nat.mul_le_mul_left _ ?_
    rw [Nat.le_div_iff_mul_le hcb, Nat.mul_comm]
    exact hle
  · rcases lt_or_eq_of_le hpleF with hltF | heqF
    · simp only [ASRM.asr_consumer_step, hF, if_true]
      rw [if_pos ⟨by simp, hltF⟩]
    · simp only [ASRM.asr_consumer_step]
      rw [if_neg (by omega)]
      exact heqF

/-- Witness for C6: `chunk_bytes = 4`, ten accumulated bytes with offset
zero, and a final sentinel frame. -/
theorem C6_processed_bytes_advance_witness :
    (ASRM.asr_consumer_step 4 [0, 1, 2, 3, 4, 5, 6] 0
        { data := [7, 8, 9], is_final := false }).2 = 10 - 10 % 4 ∧
    10 - 10 % 4 = 4 * (10 / 4) ∧
    4 ∣ (10 - 10 % 4) ∧
    10 - 10 % 4 ≤ 10 ∧
    (∀ m, 4 ∣ m → m ≤ 10 → m ≤ 10 - 10 % 4) ∧
    (ASRM.asr_consumer_step 4 [0, 1, 2, 3, 4, 5, 6] 0
        { data := [], is_final := true }).2 = 7 :=
  C6_processed_bytes_advance 4 [0, 1, 2, 3, 4, 5, 6] 0
    { data := [7, 8, 9], is_final := false }
    { data := [], is_final := true } 10 7 (by decide) (by decide)
    (by decide) rfl (by decide) (by decide) rfl (by decide)

/-- `EventBus._handle_event_safe` lets no exception escape, whatever the
handler does. -/
theorem handle_event_safe_total (h : Bus.Handler) (e : Bus.BusEvent) :
    ∃ l, Bus.handle_event_safe h e = .ok l := by
  cases hb : h.behavior <;>
    simp [Bus.handle_event_safe, Bus.runHandler, hb]
  split_ifs <;> exact ⟨_, rfl⟩

/-- C4: every subscribed handler is invoked through its own
`_handle_event_safe` wrapper (one task per handler, in subscription
order, each result independent of the other handlers); the wrapper never
propagates an exception; a failing handler on an event other than
`error.occurred` yields exactly one derived `error.occurred` event of
type `event_handler_error`; a failing handler on an `error.occurred`
event yields none; and a normally returning handler yields none. -/
theorem C4_handler_exceptions_contained
    (h hf h3 : Bus.Handler) (e eErr e3 : Bus.BusEvent)
    (table : String → List Bus.Handler) (m : String)
    (hok : h.behavior = .ok) (hraises : hf.behavior = .raises m)
    (hne : e.event_type ≠ "error.occurred")
    (heErr : eErr.event_type = "error.occurred") :
    (∃ l, Bus.handle_event_safe h3 e3 = .ok l) ∧
    Bus.handle_event_safe hf e = .ok [Bus.handlerErrorEvent] ∧
    Bus.handle_event_safe h e = .ok [] ∧
    Bus.handle_event_safe hf eErr = .ok [] ∧
    (Bus.publish table e).2 =
      (table e.event_type).map (fun h2 => Bus.handle_event_safe h2 e) ∧
    (Bus.publish table e).2.length = (table e.event_type).length := by
  have hmap : (Bus.publish table e).2 =
      (table e.event_type).map (fun h2 => Bus.handle_event_safe h2 e) := by
    rw [Bus.publish]
    split_ifs with hemp
    · rw [List.isEmpty_iff] at hemp
      simp [hemp]
    · rfl
  refine ⟨handle_event_safe_total h3 e3, ?_, ?_, ?_, hmap, ?_⟩
  · simp [Bus.handle_event_safe, Bus.runHandler, hraises, hne]
  · simp [Bus.handle_event_safe, Bus.runHandler, hok]
  · simp [Bus.handle_event_safe, Bus.runHandler, hraises, heErr]
  · rw [hmap, List.length_map]

/-- Witness for C4 with one failing and one healthy handler. -/
theorem C4_handler_exceptions_contained_witness :
    let h : Bus.Handler := { name := "good", behavior := .ok }
    let hf : Bus.Handler := { name := "bad", behavior := .raises "boom" }
    let e : Bus.BusEvent := { event_type := "asr.result_final" }
    let eErr : Bus.BusEvent := { event_type := "error.occurred" }
    let table : String → List Bus.Handler :=
      fun t => if t = "asr.result_final" then [h, hf] else []
    (∃ l, Bus.handle_event_safe hf eErr = .ok l) ∧
    Bus.handle_event_safe hf e = .ok [Bus.handlerErrorEvent] ∧
    Bus.handle_event_safe h e = .ok [] ∧
    Bus.handle_event_safe hf eErr = .ok [] ∧
    (Bus.publish table e).2 =
      (table e.event_type).map (fun h2 => Bus.handle_event_safe h2 e) ∧
    (Bus.publish table e).2.length = (table e.event_type).length :=
  C4_handler_exceptions_contained _ _ _ _ _ _ _ "boom" rfl rfl
    (by decide) rfl

/-- C9: publishing an event with no subscribed handler returns `True`,
spawns no handler task, and produces no derived `error.occurred` event. -/
theorem C9_publish_without_handlers (table : String → List Bus.Handler)
    (e : Bus.BusEvent) (hnone : table e.event_type = []) :
    Bus.publish table e = (true, []) := by
  simp [Bus.publish, hnone]

/-- Witness for C9 on an empty subscription table. -/
theorem C9_publish_without_handlers_witness :
    Bus.publish (fun _ => []) { event_type := "tts.started" } =
      (true, []) :=
  C9_publish_without_handlers _ _ rfl

/-- C8: the chunk count of `get_chunks` is off by one when the resampled
length is an exact multiple of the stride.  With the default
`chunk_secs = 0.6` (stride `9600`) and `9600` resampled samples, the code
returns `floor(9600/9600) + 1 = 2` chunks — the whole audio followed by a
spurious empty chunk — where the claimed count `ceil(9600/9600)` is `1`. -/
theorem C8_get_chunks_count_off_by_one :
    (get_chunks (List.replicate 9600 (0 : ℚ)) 9600).length = 2 ∧
    get_chunks (List.replicate 9600 (0 : ℚ)) 9600 =
      [List.replicate 9600 (0 : ℚ), []] ∧
    (9600 + 9600 - 1) / 9600 = 1 := by
  refine ⟨?_, ?_, by norm_num⟩
  · unfold get_chunks
    rw [List.length_map, List.length_range, List.length_replicate]
  · unfold get_chunks
    rw [List.length_replicate]
    show List.map _ (List.range 2) = _
    rw [show List.range 2 = [0, 1] from rfl]
    simp only [List.map_cons, List.map_nil, Nat.zero_mul, Nat.one_mul,
      List.drop_zero, List.take_replicate, List.drop_replicate,
      Nat.sub_self, List.replicate_zero, List.take_nil, Nat.min_self,
      Nat.min_zero]

end ZTalk
